import Mathlib

/-!
Verification of the Historical Match, Macro-Correlation, and Trade-Decision
Engine (files `historical_matcher.py`, `trade_picker.py`, `llm_event_query.py`).

The Python code is shallowly embedded: dictionaries become structures whose
fields are `Option`-typed (a `none` field models an absent dictionary key),
Python floats become rationals, values that may be either a float or one of
the textual "N/A" markers become `PyVal`, and code that can raise a Python
exception is embedded in `Except String`.  External collaborators (the
market-data provider, the option-chain provider, the wall clock) are passed
in as explicit function parameters, exactly at the call sites where the
source performs I/O.
-/

-- Batteries marks the `Rat` arithmetic `@[irreducible]`, which blocks
-- `decide`-style evaluation of the embedded functions on concrete inputs;
-- restore definitional transparency for this development.
attribute [local semireducible] Rat.add Rat.mul Rat.sub Rat.inv Rat.ofScientific

/-- A Python value that is either a float (embedded as a rational) or a
string, as stored in the `price_change_pct` / `max_drawdown_pct` fields,
which carry either a numeric percentage or an `"N/A"` marker. -/
inductive PyVal where
  | num (q : ℚ)
  | str (s : String)
deriving DecidableEq, Repr, Inhabited

/-- Python's built-in `round` to an integer: round half to even
(banker's rounding), which is what CPython implements for floats. -/
def pyRound (q : ℚ) : ℤ :=
  if q - ⌊q⌋ < 1 / 2 then ⌊q⌋
  else if 1 / 2 < q - ⌊q⌋ then ⌊q⌋ + 1
  else if ⌊q⌋ % 2 = 0 then ⌊q⌋ else ⌊q⌋ + 1

/-- Python's `round(x, 2)` (two decimal digits, half to even). -/
def pyRound2 (q : ℚ) : ℚ :=
  (pyRound (q * 100) : ℚ) / 100

theorem pyRound_mono {a b : ℚ} (h : a ≤ b) : pyRound a ≤ pyRound b := by
  unfold pyRound
  have hfl : ⌊a⌋ ≤ ⌊b⌋ := Int.floor_le_floor h
  by_cases heq : ⌊a⌋ = ⌊b⌋
  · have hq : ((⌊a⌋ : ℚ)) = (⌊b⌋ : ℚ) := by exact_mod_cast heq
    have hf : a - (⌊a⌋ : ℚ) ≤ b - (⌊b⌋ : ℚ) := by linarith
    split_ifs <;> first | omega | linarith
  · have h1 : ⌊a⌋ + 1 ≤ ⌊b⌋ := by omega
    split_ifs <;> omega

theorem pyRound2_mono {a b : ℚ} (h : a ≤ b) : pyRound2 a ≤ pyRound2 b := by
  unfold pyRound2
  have h1 : pyRound (a * 100) ≤ pyRound (b * 100) := pyRound_mono (by linarith)
  have h2 : ((pyRound (a * 100) : ℚ)) ≤ (pyRound (b * 100) : ℚ) := by exact_mod_cast h1
  linarith

section StableSort

variable {α : Type} {K : Type} [LinearOrder K] (key : α → K)

/-- Insert `x` into `l` in front of the first element whose key is `≤ key x`.
Building block of `sortDescBy`. -/
def insertDesc (x : α) : List α → List α
  | [] => [x]
  | y :: ys => if key y ≤ key x then x :: y :: ys else y :: insertDesc x ys

/-- Stable insertion sort into descending key order.  Models Python's
`list.sort(reverse=True, key=...)` / `sorted(..., reverse=True)`, which is a
stable descending sort (elements with equal keys keep list order). -/
def sortDescBy : List α → List α
  | [] => []
  | x :: xs => insertDesc key x (sortDescBy xs)

theorem insertDesc_perm (x : α) (l : List α) : List.Perm (insertDesc key x l) (x :: l) := by
  induction l with
  | nil => exact List.Perm.refl _
  | cons y ys ih =>
    simp only [insertDesc]
    split
    · exact List.Perm.refl _
    · exact List.Perm.trans (List.Perm.cons y ih) (List.Perm.swap x y ys)

theorem sortDescBy_perm (l : List α) : List.Perm (sortDescBy key l) l := by
  induction l with
  | nil => exact List.Perm.refl _
  | cons x xs ih =>
    exact List.Perm.trans (insertDesc_perm key x (sortDescBy key xs)) (List.Perm.cons x ih)

theorem sortDescBy_length (l : List α) : (sortDescBy key l).length = l.length :=
  (sortDescBy_perm key l).length_eq

theorem insertDesc_pairwise (x : α) (l : List α)
    (h : l.Pairwise (fun a b => key b ≤ key a)) :
    (insertDesc key x l).Pairwise (fun a b => key b ≤ key a) := by
  induction l with
  | nil => simp [insertDesc]
  | cons y ys ih =>
    rcases List.pairwise_cons.mp h with ⟨hy, hys⟩
    simp only [insertDesc]
    split
    · rename_i hle
      refine List.pairwise_cons.mpr ⟨?_, List.pairwise_cons.mpr ⟨hy, hys⟩⟩
      intro b hb
      rcases List.mem_cons.mp hb with rfl | hb
      · exact hle
      · exact le_trans (hy b hb) hle
    · rename_i hgt
      refine List.pairwise_cons.mpr ⟨?_, ih hys⟩
      intro b hb
      have hb' : b = x ∨ b ∈ ys := by
        have := (insertDesc_perm key x ys).mem_iff.mp hb
        simpa using this
      rcases hb' with rfl | hb'
      · exact le_of_not_le hgt
      · exact hy b hb'

theorem sortDescBy_pairwise (l : List α) :
    (sortDescBy key l).Pairwise (fun a b => key b ≤ key a) := by
  induction l with
  | nil => simp [sortDescBy]
  | cons x xs ih => exact insertDesc_pairwise key x _ ih

theorem insertDesc_filter (x : α) (l : List α) (s : K) :
    (insertDesc key x l).filter (fun a => key a = s) =
      if key x = s then x :: l.filter (fun a => key a = s)
      else l.filter (fun a => key a = s) := by
  induction l with
  | nil => simp only [insertDesc, List.filter]; split <;> simp_all
  | cons y ys ih =>
    simp only [insertDesc]
    by_cases h1 : key y ≤ key x
    · simp only [if_pos h1, List.filter_cons]
      split <;> split <;> simp_all
    · have hxy : key x < key y := lt_of_not_le h1
      simp only [if_neg h1, List.filter_cons, ih]
      by_cases hx : key x = s
      · have hyne : ¬ (key y = s) := by rw [← hx]; exact ne_of_gt hxy
        simp [hx, hyne]
      · simp [hx]

theorem sortDescBy_filter (l : List α) (s : K) :
    (sortDescBy key l).filter (fun a => key a = s) = l.filter (fun a => key a = s) := by
  induction l with
  | nil => rfl
  | cons x xs ih =>
    simp only [sortDescBy, insertDesc_filter, ih, List.filter_cons]
    split <;> simp_all

theorem sortDescBy_head_max (l : List α) (a : α) (rest : List α)
    (hsort : sortDescBy key l = a :: rest) :
    ∀ m ∈ l, key m ≤ key a := by
  intro m hm
  have hmem : m ∈ a :: rest := by
    rw [← hsort]
    exact ((sortDescBy_perm key l).mem_iff).mpr hm
  rcases List.mem_cons.mp hmem with rfl | hmem'
  · exact le_refl _
  · have hp := sortDescBy_pairwise key l
    rw [hsort] at hp
    exact (List.pairwise_cons.mp hp).1 m hmem'

end StableSort

/-! ## Data model (`historical_matcher.py`, `trade_picker.py`) -/

/-- Embeds `event_tags` of a classified headline.  Only `is_cpi_week` and
`surprise_positive` are read by this core (`trade_picker.py` lines 192-194,
via `event_tags.get(..., False)`). -/
structure EventTags where
  is_cpi_week : Bool := false
  surprise_positive : Bool := false
deriving DecidableEq, Repr, Inhabited

/-- The `macro_snapshot` mapping of a classified headline; only the
`Treasury2Y` / `Treasury10Y` keys are read by this core
(`trade_picker.py` lines 198-203).  A `none` field is an absent key;
present values are numeric. -/
structure MacroSnap where
  treasury2Y : Option ℚ := none
  treasury10Y : Option ℚ := none
deriving DecidableEq, Repr, Inhabited

/-- A classified headline dictionary (the fields this core reads).
`macroSnapshot` embeds the source's `macro_snapshot` key. -/
structure Headline where
  event_type : Option String := none
  sentiment : Option String := none
  sector : Option String := none
  event_tags : Option EventTags := none
  macroSnapshot : Option MacroSnap := none
  direction : Option String := none
deriving DecidableEq, Repr, Inhabited

/-- A historical event template (`historical_event_templates.json` entry).
A `none` field models an absent dictionary key. -/
structure Template where
  event_summary : Option String := none
  event_date : Option String := none
  affected_ticker : Option String := none
  event_type : Option String := none
  sentiment : Option String := none
  sector : Option String := none
deriving DecidableEq, Repr, Inhabited

/-- Embeds `historical_matcher.calculate_match_score` (lines 297-322): weighted sum
of the three categorical-equality tests.  Python's `headline.get(k) ==
template.get(k)` compares `None` equal to `None`, which the `Option`
equality reproduces exactly. -/
def calculate_match_score (h : Headline) (t : Template) : ℚ :=
  (if h.event_type = t.event_type then (1 / 2 : ℚ) else 0)
    + (if h.sentiment = t.sentiment then (3 / 10 : ℚ) else 0)
    + (if h.sector = t.sector then (1 / 5 : ℚ) else 0)

/-- The drawdown walk of `historical_matcher.calculate_drop_percentage`
(lines 206-213): running peak, minimum of `(close/peak - 1)*100`. -/
def ddLoop (peak dd : ℚ) : List ℚ → ℚ
  | [] => dd
  | c :: cs => ddLoop (max peak c) (min dd ((c / max peak c - 1) * 100)) cs

/-- Embeds `historical_matcher.calculate_drop_percentage` (lines 181-224) on the
closing-price column: `(overall_change_pct, max_drawdown_pct)`.  A frame
that is empty or has fewer than 2 rows yields `(0.0, 0.0)` (line 193-195). -/
def calculate_drop_percentage : List ℚ → ℚ × ℚ
  | [] => (0, 0)
  | [_] => (0, 0)
  | c0 :: c1 :: rest =>
      ((((c1 :: rest).getLast (List.cons_ne_nil c1 rest)) / c0 - 1) * 100,
        ddLoop c0 0 (c1 :: rest))

/-- The dictionary returned by `historical_matcher.analyze_market_impact`.
The nested `price_data` dict is summarized by its `trading_days` entry
(the other entries are raw prices no claim touches). -/
structure ImpactData where
  price_change_pct : PyVal
  max_drawdown_pct : PyVal
  date_range : String
  trading_days : Option ℕ := none
deriving DecidableEq, Repr, Inhabited

/-- Embeds `historical_matcher.analyze_market_impact` (lines 388-470), parameterized
by the fetched closing-price series `closes` (the market-data collaborator)
and the formatted index date range `dr`.  A missing or malformed
`event_date` returns the same all-`"N/A"` dictionary as an empty fetch
(lines 401-410), so those paths are represented by `closes = []`.
A non-empty frame is truncated to the first 7 rows (`DEFAULT_ANALYSIS_DAYS`)
before `calculate_drop_percentage` (lines 458-463). -/
def analyze_market_impact (dr : String) (closes : List ℚ) : ImpactData :=
  if closes.isEmpty then
    { price_change_pct := PyVal.str "N/A", max_drawdown_pct := PyVal.str "N/A",
      date_range := "N/A", trading_days := none }
  else
    let df := if 7 < closes.length then closes.take 7 else closes
    let pd := calculate_drop_percentage df
    { price_change_pct := PyVal.num pd.1, max_drawdown_pct := PyVal.num pd.2,
      date_range := dr, trading_days := some closes.length }

/-- A match record as built by `historical_matcher.match_similar_events`
(lines 360-384) and consumed by `trade_picker.generate_trade_idea`.
`drop_pct` is the legacy field name `generate_trade_idea` also accepts;
`match_similar_events` never sets it.  A `none` field models an absent
dictionary key. -/
structure MatchRec where
  event_summary : Option String := none
  match_score : Option ℚ := none
  affected_ticker : Option String := none
  price_change_pct : Option PyVal := none
  max_drawdown_pct : Option PyVal := none
  drop_pct : Option PyVal := none
  event_date : Option String := none
  date_range : Option String := none
deriving DecidableEq, Repr, Inhabited

/-- Result construction of `match_similar_events` (lines 354-384): on a
successful impact computation the impact dict's fields are copied; when
`analyze_market_impact` raises, the `except` branch (lines 371-384) still
returns the template with the impact fields set to the
`"N/A (processing error)"` markers.  `impact t = none` models the raise. -/
def mkMatchResult (impact : Template → Option ImpactData) (s : ℚ) (t : Template) :
    MatchRec :=
  match impact t with
  | some d =>
    { event_summary := some (t.event_summary.getD ""),
      match_score := some (pyRound2 s),
      affected_ticker := some (t.affected_ticker.getD "SPY"),
      price_change_pct := some d.price_change_pct,
      max_drawdown_pct := some d.max_drawdown_pct,
      event_date := some (t.event_date.getD ""),
      date_range := some d.date_range }
  | none =>
    { event_summary := some (t.event_summary.getD ""),
      match_score := some (pyRound2 s),
      affected_ticker := some (t.affected_ticker.getD "SPY"),
      price_change_pct := some (PyVal.str "N/A (processing error)"),
      max_drawdown_pct := some (PyVal.str "N/A (processing error)"),
      event_date := some (t.event_date.getD ""),
      date_range := some "N/A" }

/-- The scoring loop of `match_similar_events` (lines 342-346): score every
template, keep `(score, event)` pairs with score `> 0`. -/
def scoredEvents (h : Headline) (templates : List Template) : List (ℚ × Template) :=
  templates.filterMap fun t =>
    let s := calculate_match_score h t
    if 0 < s then some (s, t) else none

/-- Embeds `historical_matcher.match_similar_events` (lines 324-386), parameterized
by the loaded template store `templates` (`load_historical_events`) and the
market-impact collaborator `impact`.  Scored events are sorted descending by
score with Python's stable sort (line 349), truncated to `top_n`, and turned
into result records. -/
def match_similar_events (h : Headline) (templates : List Template) (top_n : ℕ)
    (impact : Template → Option ImpactData) : List MatchRec :=
  if templates.isEmpty then []
  else
    ((sortDescBy (fun p => p.1) (scoredEvents h templates)).take top_n).map
      fun p => mkMatchResult impact p.1 p.2

/-! ## `trade_picker.py` -/

/-- The trade-idea dictionary returned by `generate_trade_idea`. -/
structure TradeIdea where
  ticker : Option String := none
  trade_type : String := "option"
  direction : String := "BUY"
  option_type : Option String := none
  strike : Option ℚ := none
  expiry : Option String := none
  rationale : String := ""
deriving DecidableEq, Repr, Inhabited

/-- Embeds `trade_picker.select_expiry_date` (lines 78-112), parameterized by the
wall clock: `daysTo e` is `(parse(e) - today).days`, and `nextFriday` the
formatted next Friday from `datetime.now()` (used when no expiries exist).
The source sorts the in-range expiries ascending by days-to-expiry with a
stable sort and takes the first (lines 106-109); the fold below returns the
first minimum, which is the head of that stable ascending sort. -/
def select_expiry_date (daysTo : String → ℤ) (nextFriday : String)
    (min_days max_days : ℤ) (expiry_dates : List String) : String :=
  match expiry_dates with
  | [] => nextFriday
  | e0 :: _ =>
    let valid := expiry_dates.filterMap fun e =>
      let d := daysTo e
      if min_days ≤ d ∧ d ≤ max_days then some (e, d) else none
    match valid with
    | [] => e0
    | v0 :: vs => (vs.foldl (fun best v => if v.2 < best.2 then v else best) v0).1

/-- Embeds `trade_picker.select_strike_price` (lines 114-140). -/
def select_strike_price (current_price : ℚ) (option_type : String)
    (price_change_pct : ℚ) : ℚ :=
  let otm_pct := min (|price_change_pct| * (3 / 10 : ℚ)) 5
  let target :=
    if option_type = "PUT" then current_price * (1 - otm_pct / 100)
    else current_price * (1 + otm_pct / 100)
  if current_price < 100 then (pyRound (target * 2) : ℚ) / 2
  else (pyRound target : ℚ)

/-- Python `abs` applied to a dictionary value: raises `TypeError` when the
value is one of the `"N/A"` string markers. -/
def pyAbs : PyVal → Except String ℚ
  | PyVal.num q => Except.ok |q|
  | PyVal.str _ => Except.error "TypeError: bad operand type for abs(): 'str'"

/-- Python numeric comparison of a dictionary value with a number: raises
`TypeError` when the value is a string marker. -/
def pyNumCmp : PyVal → Except String ℚ
  | PyVal.num q => Except.ok q
  | PyVal.str _ =>
    Except.error "TypeError: '<' not supported between instances of 'str' and 'int'"

/-- The inner `get_price_change` helper of `generate_trade_idea`
(lines 166-172): `abs(price_change_pct)`, falling back to `abs(drop_pct)`,
defaulting to `0` when neither key is present. -/
def get_price_change (m : MatchRec) : Except String ℚ :=
  match m.price_change_pct with
  | some v => pyAbs v
  | none =>
    match m.drop_pct with
    | some v => pyAbs v
    | none => Except.ok 0

/-- The Python sort key `(get_price_change(x), x.get('match_score', 0))` of
line 174, compared lexicographically as Python compares tuples. -/
def tradeSortKey (m : MatchRec) : Except String (Lex (ℚ × ℚ)) :=
  match get_price_change m with
  | Except.ok pc => Except.ok (toLex (pc, m.match_score.getD 0))
  | Except.error e => Except.error e

/-- Evaluation of the sort key on every element in list order, as `sorted`
does before comparing; the first `TypeError` aborts the sort. -/
def keyedMatches : List MatchRec → Except String (List (Lex (ℚ × ℚ) × MatchRec))
  | [] => Except.ok []
  | m :: ms =>
    match tradeSortKey m, keyedMatches ms with
    | Except.ok k, Except.ok rest => Except.ok ((k, m) :: rest)
    | Except.error e, _ => Except.error e
    | Except.ok _, Except.error e => Except.error e

/-- Embeds `sorted(historical_matches, key=..., reverse=True)[0]` (line 174): the
head of Python's stable descending sort, i.e. the first match whose key is
the lexicographic maximum.  The `headD` default is never reached for a
non-empty input. -/
def pickTopMatch (ms : List MatchRec) : Except String MatchRec :=
  match keyedMatches ms with
  | Except.error e => Except.error e
  | Except.ok keyed =>
    Except.ok (((sortDescBy Prod.fst keyed).headD (toLex (0, 0), {})).2)

/-- Python `str.lower`, written through the character list so that it
evaluates by kernel reduction (`String.toLower` does not). -/
def pyLower (s : String) : String := ⟨s.data.map Char.toLower⟩

/-- Python truthiness of an optional string: `None` and `""` are falsy. -/
def strTruthy : Option String → Bool
  | none => false
  | some s => s != ""

/-- Placeholder for Python's fixed-point float formatting in the rationale
string; no claim depends on the rationale text. -/
def fmtQ (q : ℚ) : String := toString (pyRound2 q)

/-- Embeds `trade_picker.generate_trade_idea` (lines 142-319), parameterized by the
market-data collaborator: `px t` embeds `fetch_current_price(t)` (which
returns `0.0` on failure), `expiries t` the expiry list of
`fetch_option_data(t)`, and `daysTo` / `nextFriday` the clock-dependent
parts of `select_expiry_date`.  A raised `TypeError` is an `Except.error`.
`rationale_addition` starts as `""` for the (unreachable) paths on which the
source would leave it unassigned. -/
def generate_trade_idea (px : String → ℚ) (expiries : String → List String)
    (daysTo : String → ℤ) (nextFriday : String)
    (classified_headline : Headline) (historical_matches : List MatchRec) :
    Except String TradeIdea :=
  if historical_matches.isEmpty then
    Except.ok { ticker := none, trade_type := "option", direction := "BUY",
                option_type := none, strike := none, expiry := none,
                rationale := "No historical matches found to base trade on." }
  else
    match pickTopMatch historical_matches with
    | Except.error e => Except.error e
    | Except.ok top_match =>
      let ticker := top_match.affected_ticker.getD "SPY"
      -- lines 179-183: plain assignment; no numeric use of the value yet
      let pcVal : PyVal :=
        match top_match.price_change_pct with
        | some v => v
        | none => top_match.drop_pct.getD (PyVal.num 0)
      -- line 186: `abs(top_match.get('max_drawdown_pct', 5.0))` may raise
      match pyAbs (top_match.max_drawdown_pct.getD (PyVal.num 5)) with
      | Except.error e => Except.error e
      | Except.ok max_drawdown_pct =>
        let sentiment := pyLower (classified_headline.sentiment.getD "")
        let tags := classified_headline.event_tags.getD {}
        let is_cpi_week := tags.is_cpi_week
        let surprise_positive := tags.surprise_positive
        -- lines 197-203: `if treasury2y and treasury10y and treasury2y >
        -- treasury10y`; Python truthiness makes a stored 0.0 falsy
        let inverted_curve : Bool :=
          match classified_headline.macroSnapshot with
          | none => false
          | some ms =>
            match ms.treasury2Y, ms.treasury10Y with
            | some t2, some t10 => (t2 != 0) && (t10 != 0) && decide (t10 < t2)
            | _, _ => false
        let llm_direction := classified_headline.direction
        let llmTruthy := strTruthy llm_direction
        -- lines 209-218
        let llmListed := llm_direction == some "BUY" || llm_direction == some "SELL"
        let direction0 := if llmListed then llm_direction.getD "BUY" else "BUY"
        let ra0 :=
          if llmListed then
            if llm_direction = some "SELL" then
              "LLM explicitly recommends SELL direction based on the news event."
            else "LLM explicitly recommends BUY direction based on the news event."
          else ""
        -- lines 220-224: numeric comparison of the price change may raise
        match pyNumCmp pcVal with
        | Except.error e => Except.error e
        | Except.ok price_change_pct =>
          let option_type :=
            if price_change_pct < 0 ∧ 3 < |price_change_pct| then "PUT" else "CALL"
          -- lines 226-257
          let step := 
            if sentiment = "bullish" ∧ max_drawdown_pct < 2 then
              if ¬ llmTruthy ∨ llm_direction ≠ some "SELL" then
                ("equity", "BUY",
                 "Using equity (BUY) due to bullish sentiment with low expected drawdown.")
              else ("equity", direction0, ra0)
            else if sentiment = "bearish" ∧ (is_cpi_week ∨ inverted_curve ∨ surprise_positive) then
              if ¬ llmTruthy ∨ llm_direction ≠ some "BUY" then
                ("equity", "SELL",
                 "Using equity (SELL) due to bearish sentiment with risk factors: " ++
                   String.intercalate ", "
                     ((if is_cpi_week then ["CPI week"] else []) ++
                      (if inverted_curve then ["inverted yield curve"] else []) ++
                      (if surprise_positive then ["positive surprise in bearish context"] else [])) ++
                   ".")
              else ("equity", direction0, ra0)
            else
              -- `if not llm_direction or trade_type == "option"`: `trade_type`
              -- is still "option" at this point, so the condition always holds
              ("option", direction0,
               if option_type = "PUT" then
                 "Using PUT option due to expected significant downside move."
               else "Using CALL option due to expected upside potential.")
          let trade_type := step.1
          let direction := step.2.1
          let rationale_addition := step.2.2
          -- lines 259-271
          let current_price := px ticker
          if current_price ≤ 0 then
            Except.ok { ticker := some ticker, trade_type := trade_type,
                        direction := direction,
                        option_type := if trade_type = "option" then some option_type else none,
                        strike := none, expiry := none,
                        rationale := "Could not fetch current price for " ++ ticker ++ "." }
          else
            -- lines 273-285
            let selected_expiry :=
              if trade_type = "option" then
                some (select_expiry_date daysTo nextFriday 7 30 (expiries ticker))
              else none
            let selected_strike :=
              if trade_type = "option" then
                some (select_strike_price current_price option_type price_change_pct)
              else none
            -- lines 287-309
            let direction_word := if price_change_pct < 0 then "drop" else "gain"
            let prediction := if option_type = "PUT" then "downside risk" else "upside potential"
            let display_pct := |price_change_pct|
            let rationale :=
              "Event similar to " ++ top_match.event_summary.getD "" ++ " on " ++
                top_match.event_date.getD "" ++ ", which caused a " ++
                fmtQ display_pct ++ "% " ++ direction_word ++ " in " ++ ticker ++
                ". Match score: " ++ fmtQ (top_match.match_score.getD 0) ++
                ". Current event classified as " ++
                classified_headline.event_type.getD "Unknown event type" ++ ", " ++
                classified_headline.sentiment.getD "Unknown sentiment" ++
                ", affecting " ++ classified_headline.sector.getD "Unknown sector" ++
                ". Suggests " ++ prediction ++ ". " ++ rationale_addition
            Except.ok { ticker := some ticker, trade_type := trade_type,
                        direction := direction,
                        option_type := if trade_type = "option" then some option_type else none,
                        strike := selected_strike, expiry := selected_expiry,
                        rationale := rationale }

/-! ## `llm_event_query.py` — Pattern Aggregator and Correlation Engine -/

/-- The `macro_data` dictionary attached to a similar event.  A `none`
field is an absent key; present values are numeric. -/
structure MacroVals where
  cpiYoY : Option ℚ := none
  fedFundsRate : Option ℚ := none
  unemployment : Option ℚ := none
  tenYearYield : Option ℚ := none
  twoYearYield : Option ℚ := none
deriving DecidableEq, Repr, Inhabited

/-- The `sentiment_analysis` dictionary attached to a similar event:
`classified_sentiment.label`, `historical_sentiment.label` and
`comparison.agreement`, each possibly missing. -/
structure SentimentInfo where
  classifiedLabel : Option String := none
  historicalLabel : Option String := none
  agreement : Option ℚ := none
deriving DecidableEq, Repr, Inhabited

/-- A similar-event record consumed by `analyze_similar_events`: a match
enriched with sector, recovery, macro and sentiment data.  `macroData`
embeds the `macro_data` key and `sentimentAnalysis` the
`sentiment_analysis` key. -/
structure SEvent where
  price_change_pct : Option PyVal := none
  max_drawdown_pct : Option PyVal := none
  sector : Option String := none
  affected_ticker : Option String := none
  days_to_recovery : Option ℚ := none
  event_date : Option String := none
  macroData : Option MacroVals := none
  sentimentAnalysis : Option SentimentInfo := none
deriving DecidableEq, Repr, Inhabited

/-- The numeric price change of an event: the loop's
`isinstance(price_change, (int, float))` test (lines 1096-1097). -/
def numericPC (e : SEvent) : Option ℚ :=
  match e.price_change_pct with
  | some (PyVal.num q) => some q
  | _ => none

/-- Embeds `price_changes` (line 1098). -/
def priceChanges (l : List SEvent) : List ℚ := l.filterMap numericPC

/-- Embeds `bullish_count` (lines 1099-1100): numeric price changes `> 0`. -/
def bullishCount (l : List SEvent) : ℕ :=
  (priceChanges l).countP fun q => decide (0 < q)

/-- Embeds `bearish_count` (lines 1101-1102): the `else` branch, so a numeric
price change of exactly 0 counts as bearish. -/
def bearishCount (l : List SEvent) : ℕ :=
  (priceChanges l).countP fun q => decide (q ≤ 0)

/-- Embeds `drawdowns` (lines 1105-1107). -/
def drawdowns (l : List SEvent) : List ℚ :=
  l.filterMap fun e =>
    match e.max_drawdown_pct with
    | some (PyVal.num q) => some q
    | _ => none

/-- The consistency score of `analyze_similar_events` (lines 1180-1182)
before the final `round`: `max(bullish_count, bearish_count) / total_events
* 100` over the full event count (non-numeric events included in the
denominator), `0` for an empty list. -/
def consistencyScoreQ (l : List SEvent) : ℚ :=
  if 0 < l.length then
    ((max (bullishCount l) (bearishCount l) : ℚ) / (l.length : ℚ)) * 100
  else 0

def sectorOf (e : SEvent) : String := e.sector.getD "Unknown"

def tickerOf (e : SEvent) : String := e.affected_ticker.getD "Unknown"

/-- Keys of the Python counting dicts of lines 1109-1120, in insertion
order (first occurrence). -/
def orderedKeys (f : SEvent → String) (l : List SEvent) : List String :=
  l.foldl (fun acc e => if f e ∈ acc then acc else acc ++ [f e]) []

def keyCount (f : SEvent → String) (l : List SEvent) (s : String) : ℕ :=
  l.countP fun e => f e == s

/-- Embeds `max(dict.items(), key=lambda x: x[1])[0]` (lines 1185-1186): the first
key attaining the maximal count in insertion order; `"Unknown"` when the
dict is empty. -/
def dominantKey (f : SEvent → String) (l : List SEvent) : String :=
  match orderedKeys f l with
  | [] => "Unknown"
  | k0 :: ks =>
    ks.foldl (fun best k => if keyCount f l best < keyCount f l k then k else best) k0

/-- Embeds `days_to_recovery` values accumulated by the loop (lines 1122-1125);
Python truthiness skips both a missing key and a stored 0. -/
def recoveryDays (l : List SEvent) : List ℚ :=
  l.filterMap fun e => e.days_to_recovery.bind fun d => if d = 0 then none else some d

/-- Embeds `any(key in macro for key in ['CPI_YoY', 'FedFundsRate', 'Unemployment',
'TenYearYield'])` (line 1132). -/
def macroHasKeyMetric (m : MacroVals) : Bool :=
  m.cpiYoY.isSome || m.fedFundsRate.isSome || m.unemployment.isSome ||
    m.tenYearYield.isSome

/-- Whether the loop collects a macro data point for the event
(lines 1128-1145): `'macro_data' in event`, `price_change_pct is not None`
(the string markers included), and at least one key macro metric present. -/
def collectsMacro (e : SEvent) : Bool :=
  e.macroData.isSome && e.price_change_pct.isSome &&
    macroHasKeyMetric (e.macroData.getD {})

/-- Embeds `events_with_macro` (lines 1086, 1145). -/
def macroEventCount (l : List SEvent) : ℕ := l.countP collectsMacro

/-- Embeds `events_with_sentiment` (lines 1090, 1149). -/
def sentimentEventCount (l : List SEvent) : ℕ :=
  l.countP fun e => e.sentimentAnalysis.isSome

/-- Embeds `sentiment_data.get('comparison', {}).get('agreement', 0)` (line 1157). -/
def agreementOf (e : SEvent) : ℚ := ((e.sentimentAnalysis.getD {}).agreement).getD 0

/-- Embeds `classified_vs_historical["aligned"]` (lines 1158-1161). -/
def alignedCount (l : List SEvent) : ℕ :=
  l.countP fun e => e.sentimentAnalysis.isSome && decide ((7 / 10 : ℚ) ≤ agreementOf e)

/-- Embeds `aligned_performance` (lines 1244-1247): numeric price changes of
sentiment-carrying events with agreement `≥ 0.7`. -/
def alignedPerformance (l : List SEvent) : List ℚ :=
  l.filterMap fun e =>
    if e.sentimentAnalysis.isSome ∧ (7 / 10 : ℚ) ≤ agreementOf e then numericPC e else none

/-- Embeds `diverged_performance` (lines 1248-1250). -/
def divergedPerformance (l : List SEvent) : List ℚ :=
  l.filterMap fun e =>
    if e.sentimentAnalysis.isSome ∧ agreementOf e < (7 / 10 : ℚ) then numericPC e else none

/-- Embeds `sum(xs) / len(xs) if xs else 0`, the average idiom used throughout
(lines 1174-1175, 1253-1254). -/
def listAvg (l : List ℚ) : ℚ := if l.isEmpty then 0 else l.sum / (l.length : ℚ)

/-- The pattern classification of lines 1188-1206: a direction band on the
average price change concatenated with a volatility band on the average
drawdown. -/
def patternSummary (avg_price_change avg_drawdown : ℚ) : String :=
  (if 5 < avg_price_change then "Strong bullish trend"
   else if 1 < avg_price_change then "Moderate bullish trend"
   else if -1 < avg_price_change then "Neutral or sideways movement"
   else if -5 < avg_price_change then "Moderate bearish trend"
   else "Strong bearish trend") ++
  (if 10 < avg_drawdown then " with significant volatility"
   else if 5 < avg_drawdown then " with moderate volatility"
   else " with low volatility")

/-- The dictionary returned by `analyze_similar_events`.  Optional fields
model the keys present only on some paths.  The macro-enrichment keys of
lines 1228-1231 (`events_with_macro`, `macro_correlations`,
`macro_insights`) are omitted because those assignments are unreachable —
see `analyze_similar_events` below. -/
structure AnalysisResult where
  success : Bool
  message : Option String := none
  pattern_summary : Option String := none
  consistency_score : Option ℤ := none
  avg_price_change : Option ℚ := none
  avg_max_drawdown : Option ℚ := none
  bullish_pct : Option ℤ := none
  bearish_pct : Option ℤ := none
  dominant_sector : Option String := none
  dominant_ticker : Option String := none
  avg_days_to_recovery : Option PyVal := none
  similar_events_count : Option ℕ := none
  has_macro_analysis : Option Bool := none
  has_sentiment_analysis : Option Bool := none
  events_with_sentiment : Option ℕ := none
  sentiment_alignment_pct : Option ℤ := none
  sentiment_insights : Option (List String) := none
  aligned_avg_price_change : Option ℚ := none
  diverged_avg_price_change : Option ℚ := none
  aligned_count : Option ℕ := none
  diverged_count : Option ℕ := none
deriving DecidableEq, Repr, Inhabited

/-- Embeds `llm_event_query.analyze_similar_events` (lines 1058-1310).  When at
least 3 events carry usable macro data, line 1226 calls
`generate_macro_insights(macro_correlations)` with a single argument, but
`generate_macro_insights` (line 1383) requires two positional arguments
`(correlations, macro_data_points)`, so the call raises `TypeError`; the
surrounding `except` (lines 1305-1310) converts it into the failure
dictionary, making the enrichment of lines 1228-1231 unreachable.  On the
reachable path (fewer than 3 macro events) the success dictionary of lines
1209-1221 is returned, with the sentiment enrichment of lines 1236-1301
when at least 2 events carry sentiment data. -/
def analyze_similar_events (l : List SEvent) : AnalysisResult :=
  if l.isEmpty then { success := false, message := some "No similar events found" }
  else if 3 ≤ macroEventCount l then
    { success := false,
      message := some ("Error analyzing similar events: generate_macro_insights() " ++
        "missing 1 required positional argument: 'macro_data_points'") }
  else
    let total := l.length
    let avg_price_change := listAvg (priceChanges l)
    let avg_drawdown := listAvg (drawdowns l)
    let base : AnalysisResult :=
      { success := true,
        pattern_summary := some (patternSummary avg_price_change avg_drawdown),
        consistency_score := some (pyRound (consistencyScoreQ l)),
        avg_price_change := some (pyRound2 avg_price_change),
        avg_max_drawdown := some (pyRound2 avg_drawdown),
        bullish_pct :=
          some (if 0 < total then pyRound (((bullishCount l : ℚ) / (total : ℚ)) * 100) else 0),
        bearish_pct :=
          some (if 0 < total then pyRound (((bearishCount l : ℚ) / (total : ℚ)) * 100) else 0),
        dominant_sector := some (dominantKey sectorOf l),
        dominant_ticker := some (dominantKey tickerOf l),
        avg_days_to_recovery :=
          some (if (recoveryDays l).isEmpty then PyVal.str "Unknown"
                else PyVal.num (pyRound (listAvg (recoveryDays l)) : ℚ)),
        similar_events_count := some total,
        has_macro_analysis := some false }
    if 2 ≤ sentimentEventCount l then
      let ewc := sentimentEventCount l
      let alignment_pct := ((alignedCount l : ℚ) / (ewc : ℚ)) * 100
      let ap := alignedPerformance l
      let dp := divergedPerformance l
      let avg_ap := listAvg ap
      let avg_dp := listAvg dp
      let performance_diff := |avg_ap| - |avg_dp|
      let insights :=
        (if 2 ≤ ap.length ∧ 2 ≤ dp.length then
           if 2 < performance_diff then
             ["Events where sentiment analysis aligned with historical sentiment " ++
              "had stronger price movements (" ++ fmtQ avg_ap ++ "% vs " ++
              fmtQ avg_dp ++ "%)"]
           else if performance_diff < -2 then
             ["Events where sentiment analysis diverged from historical sentiment " ++
              "had stronger price movements (" ++ fmtQ avg_dp ++ "% vs " ++
              fmtQ avg_ap ++ "%)"]
           else []
         else []) ++
        (if 70 ≤ alignment_pct then
           ["Strong consistency (" ++ fmtQ alignment_pct ++ "%) between price-based " ++
            "classification and historical sentiment data suggests reliable " ++
            "sentiment signals for these events"]
         else if alignment_pct ≤ 30 then
           ["Low consistency (" ++ fmtQ alignment_pct ++ "%) between price-based " ++
            "classification and historical sentiment data suggests sentiment often " ++
            "diverges from price action for these events"]
         else [])
      { base with
        has_sentiment_analysis := some true,
        events_with_sentiment := some ewc,
        sentiment_alignment_pct := some (pyRound alignment_pct),
        sentiment_insights := some insights,
        aligned_avg_price_change :=
          if ¬ ap.isEmpty ∧ ¬ dp.isEmpty then some (pyRound2 avg_ap) else none,
        diverged_avg_price_change :=
          if ¬ ap.isEmpty ∧ ¬ dp.isEmpty then some (pyRound2 avg_dp) else none,
        aligned_count := if ¬ ap.isEmpty ∧ ¬ dp.isEmpty then some ap.length else none,
        diverged_count := if ¬ ap.isEmpty ∧ ¬ dp.isEmpty then some dp.length else none }
    else { base with has_sentiment_analysis := some false }

/-- A macro data point as assembled by the loop of lines 1133-1144:
`price_change` paired with the factor values; `yield_curve` is
`TenYearYield - TwoYearYield` when both keys are present, `None`
otherwise.  Values, when present, are numeric (the documented data
model; a string marker in `price_change` would make the correlation sums
raise, which no claim quantifies over). -/
structure MacroPoint where
  priceChange : Option ℚ := none
  cpi : Option ℚ := none
  fedRate : Option ℚ := none
  unemployment : Option ℚ := none
  yieldCurve : Option ℚ := none
deriving DecidableEq, Repr, Inhabited

/-- The four factors of line 1332: `'cpi', 'fed_rate', 'unemployment',
'yield_curve'`. -/
inductive Factor where
  | cpi | fedRate | unemployment | yieldCurve
deriving DecidableEq, Repr, Inhabited

def factorValue (f : Factor) (p : MacroPoint) : Option ℚ :=
  match f with
  | Factor.cpi => p.cpi
  | Factor.fedRate => p.fedRate
  | Factor.unemployment => p.unemployment
  | Factor.yieldCurve => p.yieldCurve

/-- Embeds `valid_points` for a factor (lines 1334-1336): pairs where both the
price change and the factor value are not `None`. -/
def validPairs (f : Factor) (pts : List MacroPoint) : List (ℚ × ℚ) :=
  pts.filterMap fun p =>
    match p.priceChange, factorValue f p with
    | some x, some y => some (x, y)
    | _, _ => none

/-- Embeds `sum_x` (line 1346). -/
def sumX (l : List (ℚ × ℚ)) : ℚ := (l.map Prod.fst).sum

/-- Embeds `sum_y` (line 1347). -/
def sumY (l : List (ℚ × ℚ)) : ℚ := (l.map Prod.snd).sum

/-- Embeds `sum_xy` (line 1348). -/
def sumXY (l : List (ℚ × ℚ)) : ℚ := (l.map fun p => p.1 * p.2).sum

/-- Embeds `sum_x2` (line 1349). -/
def sumX2 (l : List (ℚ × ℚ)) : ℚ := (l.map fun p => p.1 * p.1).sum

/-- Embeds `sum_y2` (line 1350). -/
def sumY2 (l : List (ℚ × ℚ)) : ℚ := (l.map fun p => p.2 * p.2).sum

/-- The Pearson numerator `n * sum_xy - sum_x * sum_y` (line 1353). -/
def pearsonNum (l : List (ℚ × ℚ)) : ℚ :=
  (l.length : ℚ) * sumXY l - sumX l * sumY l

/-- Embeds `n * sum_x2 - sum_x ** 2`, the x factor under the square root of the
Pearson denominator (line 1354). -/
def pearsonVarX (l : List (ℚ × ℚ)) : ℚ :=
  (l.length : ℚ) * sumX2 l - (sumX l) ^ 2

/-- Embeds `n * sum_y2 - sum_y ** 2`, the y factor under the square root of the
Pearson denominator (line 1354). -/
def pearsonVarY (l : List (ℚ × ℚ)) : ℚ :=
  (l.length : ℚ) * sumY2 l - (sumY l) ^ 2

/-- One entry of the dictionary returned by `calculate_macro_correlations`.
The source stores the float `correlation = numerator / sqrt(varX * varY)`
(`0` when the denominator is 0, lines 1356-1359, rounded for display);
since that square root is irrational, the entry stores the exact algebraic
data `(corrNum, varX, varY)` instead, and the claim-8 theorem below proves
that the stored classification agrees with the real-valued correlation. -/
structure FactorCorr where
  corrNum : ℚ := 0
  varX : ℚ := 0
  varY : ℚ := 0
  strength : String := "None"
  sampleSize : ℕ := 0
  direction : Option String := none
deriving DecidableEq, Repr, Inhabited

/-- The strength classification of lines 1362-1370 on `abs_corr =
|corrNum| / sqrt(varX * varY)`, expressed through the equivalent squared
comparisons: for `varX * varY > 0`, `|r| ≥ t ↔ t² · (varX · varY) ≤
corrNum²`, and `r = 0` when the denominator is zero. -/
def classifyStrength (num vx vy : ℚ) : String :=
  if vx * vy = 0 then "Negligible"
  else if (49 / 100) * (vx * vy) ≤ num ^ 2 then "Strong"
  else if (25 / 100) * (vx * vy) ≤ num ^ 2 then "Moderate"
  else if (9 / 100) * (vx * vy) ≤ num ^ 2 then "Weak"
  else "Negligible"

/-- Embeds `'Positive' if correlation > 0 else 'Negative'` (line 1376): the
correlation is positive iff the numerator is positive and the denominator
non-zero. -/
def directionOf (num vx vy : ℚ) : String :=
  if 0 < num ∧ vx * vy ≠ 0 then "Positive" else "Negative"

/-- Embeds `llm_event_query.calculate_macro_correlations` (lines 1312-1381) for
one factor: with fewer than 3 valid pairs the initialized entry
(`correlation 0, strength 'None', sample_size 0`, no `direction` key,
lines 1323-1328) is returned unchanged; otherwise the entry of lines
1372-1377. -/
def calcMacroCorrelations (pts : List MacroPoint) (f : Factor) : FactorCorr :=
  let valid := validPairs f pts
  if 3 ≤ valid.length then
    { corrNum := pearsonNum valid,
      varX := pearsonVarX valid,
      varY := pearsonVarY valid,
      strength := classifyStrength (pearsonNum valid) (pearsonVarX valid) (pearsonVarY valid),
      sampleSize := valid.length,
      direction := some (directionOf (pearsonNum valid) (pearsonVarX valid) (pearsonVarY valid)) }
  else
    { corrNum := 0, varX := 0, varY := 0, strength := "None",
      sampleSize := 0, direction := none }

/-! ## Theorems -/

deriving instance DecidableEq for Except

theorem ddLoop_le (cs : List ℚ) : ∀ peak dd : ℚ, ddLoop peak dd cs ≤ dd := by
  induction cs with
  | nil => intro peak dd; simp [ddLoop]
  | cons c cs ih =>
    intro peak dd
    simp only [ddLoop]
    exact le_trans (ih _ _) (min_le_left _ _)

theorem ddLoop_zero_iff (cs : List ℚ) : ∀ peak : ℚ, 0 < peak → (∀ c ∈ cs, 0 < c) →
    (ddLoop peak 0 cs = 0 ↔ List.Chain' (· ≤ ·) (peak :: cs)) := by
  induction cs with
  | nil => intro peak _ _; simp [ddLoop]
  | cons c cs ih =>
    intro peak hpeak hmem
    have hc : 0 < c := hmem c (by simp)
    have hcs : ∀ x ∈ cs, 0 < x := fun x hx => hmem x (by simp [hx])
    by_cases hle : peak ≤ c
    · have hmax : max peak c = c := max_eq_right hle
      have ht : (c / c - 1) * 100 = 0 := by
        rw [div_self (ne_of_gt hc)]; ring
      simp only [ddLoop, hmax, ht, min_self]
      rw [ih c hc hcs, List.chain'_cons]
      simp [hle]
    · have hgt : c < peak := not_le.mp hle
      have hmax : max peak c = peak := max_eq_left (le_of_lt hgt)
      have ht : (c / max peak c - 1) * 100 < 0 := by
        rw [hmax]
        have h1 : c / peak < 1 := (div_lt_one hpeak).mpr hgt
        nlinarith
      have hmin : min (0 : ℚ) ((c / max peak c - 1) * 100) = (c / max peak c - 1) * 100 :=
        min_eq_right (le_of_lt ht)
      simp only [ddLoop, hmin]
      constructor
      · intro h0
        exfalso
        have hle2 := ddLoop_le cs (max peak c) ((c / max peak c - 1) * 100)
        rw [h0] at hle2
        linarith
      · intro hch
        exact absurd (List.chain'_cons.mp hch).1 hle

/-- Claim C7: for every closing-price series of length ≥ 2 with positive
prices, the `max_drawdown_pct` computed by `calculate_drop_percentage`
(running-peak walk over the closes) is ≤ 0, and it is 0 exactly when the
series is non-decreasing. -/
theorem C7_drawdown_sign (closes : List ℚ) (hlen : 2 ≤ closes.length)
    (hpos : ∀ c ∈ closes, 0 < c) :
    (calculate_drop_percentage closes).2 ≤ 0 ∧
      ((calculate_drop_percentage closes).2 = 0 ↔ List.Chain' (· ≤ ·) closes) := by
  rcases closes with _ | ⟨c0, _ | ⟨c1, rest⟩⟩
  · simp at hlen
  · simp at hlen
  · have h0 : 0 < c0 := hpos c0 (by simp)
    have hmem : ∀ c ∈ c1 :: rest, 0 < c := fun c hc => hpos c (List.mem_cons_of_mem _ hc)
    simp only [calculate_drop_percentage]
    exact ⟨ddLoop_le (c1 :: rest) c0 0, ddLoop_zero_iff (c1 :: rest) c0 h0 hmem⟩

/-- Witness for C7 at Scenario A's series `[100, 95, 90, 110]`. -/
theorem C7_witness :
    ((2 ≤ ([100, 95, 90, 110] : List ℚ).length) ∧
      (∀ c ∈ ([100, 95, 90, 110] : List ℚ), 0 < c)) ∧
    ((calculate_drop_percentage [100, 95, 90, 110]).2 ≤ 0 ∧
      ((calculate_drop_percentage [100, 95, 90, 110]).2 = 0 ↔
        List.Chain' (· ≤ ·) ([100, 95, 90, 110] : List ℚ))) :=
  ⟨⟨by decide, by decide⟩, C7_drawdown_sign [100, 95, 90, 110] (by decide) (by decide)⟩

/-- Claim C4, counterexample: a fetched series of exactly 1 row produces the
ordinary numeric results `price_change_pct = 0.0` and
`max_drawdown_pct = 0.0`, not the explicit `"N/A"` no-data result the claim
requires for series of fewer than 2 rows. -/
theorem C4_counterexample :
    (analyze_market_impact "2020-01-02 to 2020-01-02" [100]).price_change_pct =
        PyVal.num 0 ∧
      (analyze_market_impact "2020-01-02 to 2020-01-02" [100]).max_drawdown_pct =
        PyVal.num 0 := by decide

/-- Claim C4, amended: the Market Impact Analyzer returns the explicit
`"N/A"` no-data result exactly when the fetched series is empty; a series
of exactly 1 row instead yields the numeric results `(0.0, 0.0)`,
indistinguishable from a zero move. -/
theorem C4_amended_nodata :
    (∀ (dr : String) (closes : List ℚ),
        (analyze_market_impact dr closes).price_change_pct = PyVal.str "N/A" ↔
          closes = []) ∧
    (∀ (dr : String) (c : ℚ),
        analyze_market_impact dr [c] =
          { price_change_pct := PyVal.num 0, max_drawdown_pct := PyVal.num 0,
            date_range := dr, trading_days := some 1 }) := by
  constructor
  · intro dr closes
    rcases closes with _ | ⟨c, cs⟩
    · simp [analyze_market_impact]
    · simp [analyze_market_impact]
  · intro dr c
    simp [analyze_market_impact, calculate_drop_percentage]

/-- Claim C5, counterexample: an event and a template both missing all three
categorical fields score `1.0` — every absent field counts as a matching
criterion and adds its weight — and the template is returned as a match
rather than skipped. -/
theorem C5_counterexample :
    calculate_match_score {} {} = 1 ∧
      (match_similar_events {} [{}] 3 fun _ => none).length = 1 := by decide

/-- Claim C5, amended: templates and events missing required categorical
fields are not skipped.  Python's `None == None` comparison makes a field
absent from both sides count as a matching criterion contributing its full
weight, so an event/template pair missing all three fields scores `1.0`
and the template is still returned as a match. -/
theorem C5_amended_missing_fields (h : Headline) (t : Template)
    (he : h.event_type = none) (te : t.event_type = none)
    (hs : h.sentiment = none) (ts : t.sentiment = none)
    (hc : h.sector = none) (tc : t.sector = none)
    (impact : Template → Option ImpactData) (n : ℕ) (hn : 0 < n) :
    calculate_match_score h t = 1 ∧
      (match_similar_events h [t] n impact).length = 1 := by
  have hscore : calculate_match_score h t = 1 := by
    unfold calculate_match_score
    rw [he, te, hs, ts, hc, tc]
    norm_num
  refine ⟨hscore, ?_⟩
  unfold match_similar_events scoredEvents
  simp [hscore, sortDescBy, insertDesc, List.length_take]
  omega

/-- Witness for C5 at the all-fields-missing event and template. -/
theorem C5_witness :
    ((({} : Headline).event_type = none ∧ (({} : Template)).event_type = none ∧
      ({} : Headline).sentiment = none ∧ (({} : Template)).sentiment = none ∧
      ({} : Headline).sector = none ∧ (({} : Template)).sector = none ∧ 0 < 3) ∧
    (calculate_match_score {} {} = 1 ∧
      (match_similar_events {} [{}] 3 fun _ => none).length = 1)) :=
  ⟨⟨rfl, rfl, rfl, rfl, rfl, rfl, by decide⟩,
    C5_amended_missing_fields {} {} rfl rfl rfl rfl rfl rfl (fun _ => none) 3 (by decide)⟩

/-- Claim C2: the claim that `generate_trade_idea` returns a `TradeIdea`
rather than raising fails on the code.  A match whose impact fields carry
the `"N/A (processing error)"` markers — produced by `match_similar_events`
itself when per-item impact computation fails — makes the sort key call
`abs()` on a string, raising an uncaught `TypeError` (line 168 via
line 174 of `trade_picker.py`). -/
theorem C2_marker_matches_raise :
    generate_trade_idea (fun _ => 50) (fun _ => []) (fun _ => 10) "2025-01-03"
        { event_type := some "Monetary Policy" }
        (match_similar_events { event_type := some "Monetary Policy" }
          [{ event_type := some "Monetary Policy", event_summary := some "Fed hike",
             event_date := some "2022-06-15", affected_ticker := some "SPY" }] 3
          fun _ => none) =
      Except.error "TypeError: bad operand type for abs(): 'str'" := by decide

/-- Claim C3: the external-recommendation overrides are inverted.  For a
Bullish event whose top match has `|max_drawdown_pct| < 2.0` and an
external SELL recommendation, the emitted direction is SELL (the claim
requires BUY); for a Bearish event in CPI week with an external BUY
recommendation, the emitted direction is BUY (the claim requires SELL).
The rule-based override only fires when the external direction does NOT
contradict it (`llm_direction != "SELL"` at line 231, `!= "BUY"` at
line 239 of `trade_picker.py`), the opposite of the adjacent comments. -/
theorem C3_llm_override_inverted :
    (Except.map (fun t => (t.trade_type, t.direction))
        (generate_trade_idea (fun _ => 50) (fun _ => []) (fun _ => 10) "2025-01-03"
          { sentiment := some "Bullish", direction := some "SELL" }
          [{ price_change_pct := some (PyVal.num 1),
             max_drawdown_pct := some (PyVal.num (-1)),
             match_score := some (4/5), affected_ticker := some "SPY" }]) =
      Except.ok ("equity", "SELL")) ∧
    (Except.map (fun t => (t.trade_type, t.direction))
        (generate_trade_idea (fun _ => 50) (fun _ => []) (fun _ => 10) "2025-01-03"
          { sentiment := some "Bearish", direction := some "BUY",
            event_tags := some { is_cpi_week := true } }
          [{ price_change_pct := some (PyVal.num (-4)),
             max_drawdown_pct := some (PyVal.num (-5)),
             match_score := some (4/5), affected_ticker := some "SPY" }]) =
      Except.ok ("equity", "BUY")) := by
  constructor <;> decide

theorem macroEventCount_le_length (l : List SEvent) : macroEventCount l ≤ l.length :=
  List.countP_le_length _

/-- Claim C1: the claim fails on the code — whenever at least 3 matches carry
a macro snapshot, `analyze_similar_events` reports failure and the base
pattern summary is absent, because line 1226 calls
`generate_macro_insights` with one argument while the function requires
two, and the resulting `TypeError` is converted into the failure result by
the surrounding `except`. -/
theorem C1_macro_enrichment_failure (l : List SEvent)
    (h : 3 ≤ macroEventCount l) :
    (analyze_similar_events l).success = false ∧
      (analyze_similar_events l).pattern_summary = none := by
  have hne : l.isEmpty = false := by
    rcases l with _ | ⟨e, es⟩
    · simp [macroEventCount] at h
    · rfl
  unfold analyze_similar_events
  rw [hne]
  simp [h]

/-- Witness for C1: three matches carrying a CPI macro snapshot. -/
theorem C1_witness :
    (3 ≤ macroEventCount
      [{ price_change_pct := some (PyVal.num 2), macroData := some { cpiYoY := some 3 } },
       { price_change_pct := some (PyVal.num 1), macroData := some { cpiYoY := some 4 } },
       { price_change_pct := some (PyVal.num (-1)), macroData := some { cpiYoY := some 5 } }]) ∧
    ((analyze_similar_events
      [{ price_change_pct := some (PyVal.num 2), macroData := some { cpiYoY := some 3 } },
       { price_change_pct := some (PyVal.num 1), macroData := some { cpiYoY := some 4 } },
       { price_change_pct := some (PyVal.num (-1)), macroData := some { cpiYoY := some 5 } }]).success = false ∧
     (analyze_similar_events
      [{ price_change_pct := some (PyVal.num 2), macroData := some { cpiYoY := some 3 } },
       { price_change_pct := some (PyVal.num 1), macroData := some { cpiYoY := some 4 } },
       { price_change_pct := some (PyVal.num (-1)), macroData := some { cpiYoY := some 5 } }]).pattern_summary = none) :=
  ⟨by decide, C1_macro_enrichment_failure _ (by decide)⟩

theorem mkMatchResult_match_score (impact : Template → Option ImpactData)
    (s : ℚ) (t : Template) :
    (mkMatchResult impact s t).match_score = some (pyRound2 s) := by
  unfold mkMatchResult
  cases impact t <;> rfl

theorem calculate_match_score_mem (h : Headline) (t : Template) :
    calculate_match_score h t ∈ ([0, 1/5, 3/10, 1/2, 7/10, 4/5, 1] : List ℚ) := by
  unfold calculate_match_score
  split_ifs <;> decide

theorem pyRound2_score (h : Headline) (t : Template) :
    pyRound2 (calculate_match_score h t) = calculate_match_score h t := by
  have hm := calculate_match_score_mem h t
  simp only [List.mem_cons, List.not_mem_nil, or_false] at hm
  rcases hm with h1 | h1 | h1 | h1 | h1 | h1 | h1 <;> rw [h1] <;> decide

theorem scoredEvents_mem (h : Headline) (templates : List Template)
    (p : ℚ × Template) (hp : p ∈ scoredEvents h templates) :
    0 < p.1 ∧ p.1 = calculate_match_score h p.2 := by
  unfold scoredEvents at hp
  rcases List.mem_filterMap.mp hp with ⟨t, _, hsome⟩
  by_cases hpos : 0 < calculate_match_score h t
  · rw [if_pos hpos] at hsome
    cases hsome
    exact ⟨hpos, rfl⟩
  · rw [if_neg hpos] at hsome
    cases hsome

/-- Claim C9: for a fixed event, template store, `top_n` and market-impact
collaborator, `match_similar_events` (a pure function of these inputs,
hence deterministic) returns at most `top_n` records, sorted descending by
match score, containing only positive scores (zero-scoring templates are
discarded), and the stable sort keeps tied scores in original template
order (filtering the sorted scored list by any score value equals
filtering the unsorted one). -/
theorem C9_ranking_stability (h : Headline) (templates : List Template)
    (top_n : ℕ) (impact : Template → Option ImpactData) :
    (match_similar_events h templates top_n impact).length ≤ top_n ∧
    (match_similar_events h templates top_n impact).Pairwise
      (fun a b => b.match_score.getD 0 ≤ a.match_score.getD 0) ∧
    (∀ r ∈ match_similar_events h templates top_n impact,
      0 < r.match_score.getD 0) ∧
    (∀ s : ℚ,
      (sortDescBy (fun p => p.1) (scoredEvents h templates)).filter
          (fun p => p.1 = s) =
        (scoredEvents h templates).filter (fun p => p.1 = s)) := by
  have hstab : ∀ s : ℚ,
      (sortDescBy (fun p => p.1) (scoredEvents h templates)).filter
          (fun p => p.1 = s) =
        (scoredEvents h templates).filter (fun p => p.1 = s) :=
    fun s => sortDescBy_filter _ _ s
  cases hemp : templates.isEmpty with
  | true =>
    have hnil : match_similar_events h templates top_n impact = [] := by
      unfold match_similar_events
      simp [hemp]
    rw [hnil]
    exact ⟨by simp, by simp, by simp, hstab⟩
  | false =>
    have hrw : match_similar_events h templates top_n impact =
        ((sortDescBy (fun p => p.1) (scoredEvents h templates)).take top_n).map
          (fun p => mkMatchResult impact p.1 p.2) := by
      unfold match_similar_events
      simp [hemp]
    rw [hrw]
    refine ⟨?_, ?_, ?_, hstab⟩
    · calc (((sortDescBy (fun p => p.1) (scoredEvents h templates)).take top_n).map
          (fun p => mkMatchResult impact p.1 p.2)).length
          = ((sortDescBy (fun p => p.1) (scoredEvents h templates)).take top_n).length :=
            List.length_map _ _
        _ ≤ top_n := List.length_take_le _ _
    · have hp := sortDescBy_pairwise (fun p : ℚ × Template => p.1) (scoredEvents h templates)
      have hp2 := hp.sublist (List.take_sublist top_n _)
      rw [List.pairwise_map]
      refine hp2.imp ?_
      intro a b hab
      rw [mkMatchResult_match_score, mkMatchResult_match_score]
      simpa using pyRound2_mono hab
    · intro r hr
      rcases List.mem_map.mp hr with ⟨p, hpmem, hpr⟩
      have hp_sorted : p ∈ sortDescBy (fun p : ℚ × Template => p.1) (scoredEvents h templates) :=
        List.take_subset _ _ hpmem
      have hp_scored : p ∈ scoredEvents h templates :=
        (sortDescBy_perm _ _).mem_iff.mp hp_sorted
      obtain ⟨hpos, heq⟩ := scoredEvents_mem h templates p hp_scored
      rw [← hpr, mkMatchResult_match_score]
      simp only [Option.getD_some]
      rw [heq, pyRound2_score]
      rw [← heq]
      exact hpos

theorem keyedMatches_ok {l : List MatchRec} {ks : List (Lex (ℚ × ℚ) × MatchRec)}
    (h : keyedMatches l = Except.ok ks) :
    ks.length = l.length ∧
    (∀ p ∈ ks, p.2 ∈ l ∧ tradeSortKey p.2 = Except.ok p.1) ∧
    (∀ m ∈ l, ∃ k, (k, m) ∈ ks ∧ tradeSortKey m = Except.ok k) := by
  induction l generalizing ks with
  | nil =>
    simp only [keyedMatches, Except.ok.injEq] at h
    subst h
    simp
  | cons m ms ih =>
    rw [keyedMatches] at h
    cases hk : tradeSortKey m with
    | error e => rw [hk] at h; cases h
    | ok k =>
      cases hrest : keyedMatches ms with
      | error e => rw [hk, hrest] at h; cases h
      | ok rest =>
        rw [hk, hrest] at h
        have hks : ks = (k, m) :: rest := by
          cases h; rfl
        obtain ⟨hlen, hfwd, hbwd⟩ := ih hrest
        subst hks
        refine ⟨by simp [hlen], ?_, ?_⟩
        · intro p hp
          rcases List.mem_cons.mp hp with rfl | hp'
          · exact ⟨List.mem_cons_self _ _, hk⟩
          · obtain ⟨h1, h2⟩ := hfwd p hp'
            exact ⟨List.mem_cons_of_mem _ h1, h2⟩
        · intro x hx
          rcases List.mem_cons.mp hx with rfl | hx'
          · exact ⟨k, List.mem_cons_self _ _, hk⟩
          · obtain ⟨k', hk1, hk2⟩ := hbwd x hx'
            exact ⟨k', List.mem_cons_of_mem _ hk1, hk2⟩

/-- Claim C10: `generate_trade_idea` does not pick the highest-scoring match:
the `top_match` selected through `pickTopMatch` maximizes the absolute
price change (`|price_change_pct|`, falling back to `|drop_pct|`,
defaulting to 0), with `match_score` only breaking ties — every other
match's `(|price change|, match_score)` pair is lexicographically ≤ the
selected one's. -/
theorem C10_top_match_selection (l : List MatchRec) (tm : MatchRec)
    (hne : l ≠ []) (htop : pickTopMatch l = Except.ok tm) :
    tm ∈ l ∧
    ∀ m ∈ l, ∀ qm qt : ℚ,
      get_price_change m = Except.ok qm → get_price_change tm = Except.ok qt →
      (qm < qt ∨ (qm = qt ∧ m.match_score.getD 0 ≤ tm.match_score.getD 0)) := by
  cases hks : keyedMatches l with
  | error e =>
    have hred : pickTopMatch l = Except.error e := by
      unfold pickTopMatch; rw [hks]
    rw [hred] at htop
    cases htop
  | ok ks =>
    have hred : pickTopMatch l =
        Except.ok (((sortDescBy Prod.fst ks).headD
          (toLex (0, 0), ({} : MatchRec))).2) := by
      unfold pickTopMatch; rw [hks]
    rw [hred] at htop
    obtain ⟨hlen, hfwd, hbwd⟩ := keyedMatches_ok hks
    have hkne : ks ≠ [] := by
      intro hk0
      rw [hk0] at hlen
      exact hne (List.length_eq_zero.mp hlen.symm)
    have hsne : sortDescBy Prod.fst ks ≠ [] := by
      intro h0
      have hl := sortDescBy_length (Prod.fst (β := MatchRec)) ks
      rw [h0] at hl
      exact hkne (List.length_eq_zero.mp hl.symm)
    obtain ⟨a, rest, hsort⟩ := List.exists_cons_of_ne_nil hsne
    rw [hsort] at htop
    simp only [List.headD_cons, Except.ok.injEq] at htop
    have htm : a.2 = tm := htop
    have ha_mem : a ∈ ks := by
      have : a ∈ sortDescBy Prod.fst ks := by
        rw [hsort]; exact List.mem_cons_self _ _
      exact (sortDescBy_perm Prod.fst ks).mem_iff.mp this
    obtain ⟨ha_in_l, ha_key⟩ := hfwd a ha_mem
    refine ⟨htm ▸ ha_in_l, ?_⟩
    intro m hm qm qt hqm hqt
    obtain ⟨k, hk_mem, hk_key⟩ := hbwd m hm
    have hk_eq : k = toLex (qm, m.match_score.getD 0) := by
      unfold tradeSortKey at hk_key
      rw [hqm] at hk_key
      cases hk_key; rfl
    have ha_eq : a.1 = toLex (qt, tm.match_score.getD 0) := by
      have hkey2 : tradeSortKey tm = Except.ok a.1 := htm ▸ ha_key
      unfold tradeSortKey at hkey2
      rw [hqt] at hkey2
      simp only [Except.ok.injEq] at hkey2
      exact hkey2.symm
    have hle : k ≤ a.1 :=
      sortDescBy_head_max Prod.fst ks a rest hsort (k, m) hk_mem
    rw [hk_eq, ha_eq] at hle
    exact (Prod.Lex.le_iff _ _).mp hle

/-- Concrete matches for the C10 witness: the second match has the larger
absolute price change but the smaller match score. -/
def c10Matches : List MatchRec :=
  [{ price_change_pct := some (PyVal.num 1), max_drawdown_pct := some (PyVal.num (-1)),
     match_score := some (9/10), affected_ticker := some "SPY" },
   { price_change_pct := some (PyVal.num (-5)), max_drawdown_pct := some (PyVal.num (-6)),
     match_score := some (1/5), affected_ticker := some "QQQ" }]

def c10Top : MatchRec :=
  { price_change_pct := some (PyVal.num (-5)), max_drawdown_pct := some (PyVal.num (-6)),
    match_score := some (1/5), affected_ticker := some "QQQ" }

/-- Witness for C10: the lower-scoring match with the larger move is
selected. -/
theorem C10_witness :
    (c10Matches ≠ [] ∧ pickTopMatch c10Matches = Except.ok c10Top) ∧
    (c10Top ∈ c10Matches ∧
      ∀ m ∈ c10Matches, ∀ qm qt : ℚ,
        get_price_change m = Except.ok qm → get_price_change c10Top = Except.ok qt →
        (qm < qt ∨ (qm = qt ∧ m.match_score.getD 0 ≤ c10Top.match_score.getD 0))) :=
  ⟨⟨by decide, by decide⟩, C10_top_match_selection c10Matches c10Top (by decide) (by decide)⟩

/-- The sign notion of the claim's spec sentence: a price-change sign in
{positive, zero, negative}. -/
def ratSign (q : ℚ) : ℤ := if 0 < q then 1 else if q < 0 then -1 else 0

/-- The claim's notion, from the spec's words: every match carries a
numeric price change and all signs coincide. -/
def allSameSign (l : List SEvent) : Prop :=
  (∀ e ∈ l, (numericPC e).isSome = true) ∧
    ∀ e ∈ l, ∀ f ∈ l, ratSign ((numericPC e).getD 0) = ratSign ((numericPC f).getD 0)

/-- Claim C6, counterexample: the matches `[-1, 0]` do not share a
price-change sign (one negative, one zero), yet the consistency score is
100, because the loop counts a price change of exactly 0 as bearish. -/
theorem C6_counterexample :
    consistencyScoreQ
        [{ price_change_pct := some (PyVal.num (-1)) },
         { price_change_pct := some (PyVal.num 0) }] = 100 ∧
      ¬ allSameSign
        [{ price_change_pct := some (PyVal.num (-1)) },
         { price_change_pct := some (PyVal.num 0) }] := by
  constructor
  · decide
  · unfold allSameSign
    decide

theorem countP_filterMap_num (p : ℚ → Bool) (l : List SEvent) :
    (l.filterMap numericPC).countP p =
      l.countP (fun e => ((numericPC e).map p).getD false) := by
  induction l with
  | nil => rfl
  | cons e es ih =>
    cases hne : numericPC e <;>
      simp [List.filterMap_cons, hne, List.countP_cons, ih]

theorem bullishCount_full (l : List SEvent) :
    bullishCount l = l.length ↔ ∀ e ∈ l, ∃ q, numericPC e = some q ∧ 0 < q := by
  unfold bullishCount priceChanges
  rw [countP_filterMap_num, List.countP_eq_length]
  constructor
  · intro hall e he
    have h1 := hall e he
    cases hne : numericPC e with
    | none => rw [hne] at h1; simp at h1
    | some q =>
      rw [hne] at h1
      simp at h1
      exact ⟨q, rfl, h1⟩
  · intro hall e he
    obtain ⟨q, hq, hpos⟩ := hall e he
    rw [hq]
    simpa using hpos

theorem bearishCount_full (l : List SEvent) :
    bearishCount l = l.length ↔ ∀ e ∈ l, ∃ q, numericPC e = some q ∧ q ≤ 0 := by
  unfold bearishCount priceChanges
  rw [countP_filterMap_num, List.countP_eq_length]
  constructor
  · intro hall e he
    have h1 := hall e he
    cases hne : numericPC e with
    | none => rw [hne] at h1; simp at h1
    | some q =>
      rw [hne] at h1
      simp at h1
      exact ⟨q, rfl, h1⟩
  · intro hall e he
    obtain ⟨q, hq, hpos⟩ := hall e he
    rw [hq]
    simpa using hpos

/-- Claim C6, amended: for every non-empty list of matches the consistency
score lies in [0, 100] and equals `max(bullish, bearish)/total × 100`
(non-numeric price changes count toward the total only); it equals 100 iff
every match has a numeric price change and either all are positive or all
are ≤ 0 — a price change of exactly 0 is counted as bearish, so a list
mixing negatives and zeros still scores 100. -/
theorem C6_amended_consistency (l : List SEvent) (hne : l ≠ []) :
    0 ≤ consistencyScoreQ l ∧ consistencyScoreQ l ≤ 100 ∧
    consistencyScoreQ l =
      ((max (bullishCount l) (bearishCount l) : ℚ) / (l.length : ℚ)) * 100 ∧
    (consistencyScoreQ l = 100 ↔
      (∀ e ∈ l, (numericPC e).isSome = true) ∧
        ((∀ e ∈ l, ∃ q, numericPC e = some q ∧ 0 < q) ∨
         (∀ e ∈ l, ∃ q, numericPC e = some q ∧ q ≤ 0))) := by
  have hlen : 0 < l.length := List.length_pos.mpr hne
  have hlenQ : (0 : ℚ) < (l.length : ℚ) := by exact_mod_cast hlen
  have hform : consistencyScoreQ l =
      ((max (bullishCount l) (bearishCount l) : ℚ) / (l.length : ℚ)) * 100 := by
    unfold consistencyScoreQ
    rw [if_pos hlen]
  have hbull_le : bullishCount l ≤ l.length := by
    unfold bullishCount priceChanges
    exact le_trans (List.countP_le_length _) (List.length_filterMap_le _ _)
  have hbear_le : bearishCount l ≤ l.length := by
    unfold bearishCount priceChanges
    exact le_trans (List.countP_le_length _) (List.length_filterMap_le _ _)
  have hmax_le : max (bullishCount l) (bearishCount l) ≤ l.length :=
    max_le hbull_le hbear_le
  have hmaxQ : max ((bullishCount l : ℚ)) ((bearishCount l : ℚ)) ≤ (l.length : ℚ) := by
    exact_mod_cast hmax_le
  refine ⟨?_, ?_, hform, ?_⟩
  · rw [hform]
    positivity
  · rw [hform]
    have h1 : max ((bullishCount l : ℚ)) ((bearishCount l : ℚ)) / (l.length : ℚ) ≤ 1 :=
      (div_le_one hlenQ).mpr hmaxQ
    linarith
  · rw [hform]
    constructor
    · intro h100
      have hM : max ((bullishCount l : ℚ)) ((bearishCount l : ℚ)) = (l.length : ℚ) := by
        field_simp at h100
        linarith
      have hMn : max (bullishCount l) (bearishCount l) = l.length := by exact_mod_cast hM
      rcases max_choice (bullishCount l) (bearishCount l) with hc | hc
      · have hb := (bullishCount_full l).mp (by rw [← hc]; exact hMn)
        refine ⟨?_, Or.inl hb⟩
        intro e he
        obtain ⟨q, hq, _⟩ := hb e he
        simp [hq]
      · have hb := (bearishCount_full l).mp (by rw [← hc]; exact hMn)
        refine ⟨?_, Or.inr hb⟩
        intro e he
        obtain ⟨q, hq, _⟩ := hb e he
        simp [hq]
    · rintro ⟨hsome, hdisj⟩
      have hMn : max (bullishCount l) (bearishCount l) = l.length := by
        rcases hdisj with hb | hb
        · have hbl := (bullishCount_full l).mpr hb
          exact le_antisymm hmax_le (hbl ▸ le_max_left _ _)
        · have hbl := (bearishCount_full l).mpr hb
          exact le_antisymm hmax_le (hbl ▸ le_max_right _ _)
      have hMQ : max ((bullishCount l : ℚ)) ((bearishCount l : ℚ)) = (l.length : ℚ) := by
        exact_mod_cast hMn
      rw [hMQ, div_self (ne_of_gt hlenQ)]
      norm_num

/-- Concrete events for the C6 witness. -/
def c6Events : List SEvent :=
  [{ price_change_pct := some (PyVal.num 3) },
   { price_change_pct := some (PyVal.num 4) }]

/-- Witness for C6 at two bullish matches. -/
theorem C6_witness :
    (c6Events ≠ []) ∧
    (0 ≤ consistencyScoreQ c6Events ∧ consistencyScoreQ c6Events ≤ 100 ∧
      consistencyScoreQ c6Events =
        ((max (bullishCount c6Events) (bearishCount c6Events) : ℚ) /
          (c6Events.length : ℚ)) * 100 ∧
      (consistencyScoreQ c6Events = 100 ↔
        (∀ e ∈ c6Events, (numericPC e).isSome = true) ∧
          ((∀ e ∈ c6Events, ∃ q, numericPC e = some q ∧ 0 < q) ∨
           (∀ e ∈ c6Events, ∃ q, numericPC e = some q ∧ q ≤ 0)))) :=
  ⟨by decide, C6_amended_consistency c6Events (by decide)⟩

theorem sum_sq_dev (xs : List ℚ) (a : ℚ) :
    (xs.map fun y => (y - a) ^ 2).sum =
      (xs.map fun y => y * y).sum - 2 * a * xs.sum + (xs.length : ℚ) * a ^ 2 := by
  induction xs with
  | nil => simp
  | cons x xs ih =>
    simp only [List.map_cons, List.sum_cons, List.length_cons]
    push_cast
    rw [ih]
    ring

theorem listVar_nonneg (xs : List ℚ) :
    0 ≤ (xs.length : ℚ) * (xs.map fun y => y * y).sum - xs.sum ^ 2 := by
  induction xs with
  | nil => simp
  | cons x xs ih =>
    simp only [List.map_cons, List.sum_cons, List.length_cons]
    have hdev : 0 ≤ (xs.map fun y => (y - x) ^ 2).sum := by
      apply List.sum_nonneg
      intro b hb
      rcases List.mem_map.mp hb with ⟨y, _, rfl⟩
      positivity
    have hdev2 := sum_sq_dev xs x
    have h2 : 0 ≤ (xs.map fun y => y * y).sum - 2 * x * xs.sum + (xs.length : ℚ) * x ^ 2 := by
      rw [← hdev2]; exact hdev
    push_cast
    have key : ((xs.length : ℚ) + 1) * (x * x + (xs.map fun y => y * y).sum) -
        (x + xs.sum) ^ 2 =
        ((xs.length : ℚ) * (xs.map fun y => y * y).sum - xs.sum ^ 2) +
          ((xs.map fun y => y * y).sum - 2 * x * xs.sum + (xs.length : ℚ) * x ^ 2) := by
      ring
    rw [key]
    linarith

theorem pearsonVarX_nonneg (l : List (ℚ × ℚ)) : 0 ≤ pearsonVarX l := by
  unfold pearsonVarX sumX2 sumX
  simpa [List.map_map, Function.comp] using listVar_nonneg (l.map Prod.fst)

theorem pearsonVarY_nonneg (l : List (ℚ × ℚ)) : 0 ≤ pearsonVarY l := by
  unfold pearsonVarY sumY2 sumY
  simpa [List.map_map, Function.comp] using listVar_nonneg (l.map Prod.snd)

theorem abs_corr_ge_iff (num vx vy : ℚ) (r : ℝ) (hvx : 0 ≤ vx) (hvy : 0 ≤ vy)
    (hr : r = if Real.sqrt ((vx : ℝ) * (vy : ℝ)) = 0 then 0
          else (num : ℝ) / Real.sqrt ((vx : ℝ) * (vy : ℝ)))
    (t : ℝ) (ht : 0 < t) :
    t ≤ |r| ↔ (vx * vy ≠ 0 ∧ t ^ 2 * ((vx : ℝ) * (vy : ℝ)) ≤ (num : ℝ) ^ 2) := by
  have hprod : (0 : ℝ) ≤ (vx : ℝ) * (vy : ℝ) :=
    mul_nonneg (by exact_mod_cast hvx) (by exact_mod_cast hvy)
  by_cases hz : Real.sqrt ((vx : ℝ) * (vy : ℝ)) = 0
  · rw [if_pos hz] at hr
    subst hr
    simp only [abs_zero]
    have hzero : (vx : ℝ) * (vy : ℝ) = 0 := (Real.sqrt_eq_zero hprod).mp hz
    have hq : vx * vy = 0 := by exact_mod_cast hzero
    constructor
    · intro hle; linarith
    · rintro ⟨hne, _⟩; exact absurd hq hne
  · rw [if_neg hz] at hr
    subst hr
    have hpos : 0 < Real.sqrt ((vx : ℝ) * (vy : ℝ)) :=
      lt_of_le_of_ne (Real.sqrt_nonneg _) (Ne.symm hz)
    have hprodne : vx * vy ≠ 0 := by
      intro h0
      apply hz
      have h0R : (vx : ℝ) * (vy : ℝ) = 0 := by exact_mod_cast h0
      rw [h0R, Real.sqrt_zero]
    rw [abs_div, abs_of_pos hpos, le_div_iff₀ hpos]
    constructor
    · intro hle
      refine ⟨hprodne, ?_⟩
      have hsq : (t * Real.sqrt ((vx : ℝ) * (vy : ℝ))) ^ 2 ≤ |(num : ℝ)| ^ 2 :=
        pow_le_pow_left₀ (by positivity) hle 2
      rw [mul_pow, Real.sq_sqrt hprod, sq_abs] at hsq
      exact hsq
    · rintro ⟨_, hsq⟩
      have h1 : (t * Real.sqrt ((vx : ℝ) * (vy : ℝ))) ^ 2 ≤ |(num : ℝ)| ^ 2 := by
        rw [mul_pow, Real.sq_sqrt hprod, sq_abs]
        exact hsq
      exact (pow_le_pow_iff_left₀ (by positivity) (abs_nonneg _) (by norm_num)).mp h1

theorem corr_pos_iff (num vx vy : ℚ) (r : ℝ) (hvx : 0 ≤ vx) (hvy : 0 ≤ vy)
    (hr : r = if Real.sqrt ((vx : ℝ) * (vy : ℝ)) = 0 then 0
          else (num : ℝ) / Real.sqrt ((vx : ℝ) * (vy : ℝ))) :
    0 < r ↔ (0 < num ∧ vx * vy ≠ 0) := by
  have hprod : (0 : ℝ) ≤ (vx : ℝ) * (vy : ℝ) :=
    mul_nonneg (by exact_mod_cast hvx) (by exact_mod_cast hvy)
  by_cases hz : Real.sqrt ((vx : ℝ) * (vy : ℝ)) = 0
  · rw [if_pos hz] at hr
    subst hr
    have hzero : (vx : ℝ) * (vy : ℝ) = 0 := (Real.sqrt_eq_zero hprod).mp hz
    have hq : vx * vy = 0 := by exact_mod_cast hzero
    constructor
    · intro hlt; linarith
    · rintro ⟨_, hne⟩; exact absurd hq hne
  · rw [if_neg hz] at hr
    subst hr
    have hpos : 0 < Real.sqrt ((vx : ℝ) * (vy : ℝ)) :=
      lt_of_le_of_ne (Real.sqrt_nonneg _) (Ne.symm hz)
    have hprodne : vx * vy ≠ 0 := by
      intro h0
      apply hz
      have h0R : (vx : ℝ) * (vy : ℝ) = 0 := by exact_mod_cast h0
      rw [h0R, Real.sqrt_zero]
    constructor
    · intro hlt
      refine ⟨?_, hprodne⟩
      have hnum : 0 < (num : ℝ) := by
        by_contra hn
        push_neg at hn
        have : (num : ℝ) / Real.sqrt ((vx : ℝ) * (vy : ℝ)) ≤ 0 :=
          div_nonpos_of_nonpos_of_nonneg hn (le_of_lt hpos)
        linarith
      exact_mod_cast hnum
    · rintro ⟨hnum, _⟩
      exact div_pos (by exact_mod_cast hnum) hpos

theorem classifyStrength_eq_real (num vx vy : ℚ) (r : ℝ) (hvx : 0 ≤ vx) (hvy : 0 ≤ vy)
    (hr : r = if Real.sqrt ((vx : ℝ) * (vy : ℝ)) = 0 then 0
          else (num : ℝ) / Real.sqrt ((vx : ℝ) * (vy : ℝ))) :
    classifyStrength num vx vy =
      if (7/10 : ℝ) ≤ |r| then "Strong"
      else if (1/2 : ℝ) ≤ |r| then "Moderate"
      else if (3/10 : ℝ) ≤ |r| then "Weak"
      else "Negligible" := by
  by_cases hz : vx * vy = 0
  · have hzR : (vx : ℝ) * (vy : ℝ) = 0 := by exact_mod_cast hz
    rw [hzR, Real.sqrt_zero, if_pos rfl] at hr
    subst hr
    simp only [abs_zero, classifyStrength, if_pos hz]
    norm_num
  · have h7 : (7/10 : ℝ) ≤ |r| ↔ (49/100 : ℚ) * (vx * vy) ≤ num ^ 2 := by
      rw [abs_corr_ge_iff num vx vy r hvx hvy hr (7/10) (by norm_num)]
      constructor
      · rintro ⟨_, hsq⟩
        have : ((49/100 : ℚ) * (vx * vy) : ℚ) ≤ ((num ^ 2 : ℚ)) := by
          have h49 : ((7/10 : ℝ)) ^ 2 = ((49/100 : ℚ) : ℝ) := by norm_num
          rw [h49] at hsq
          exact_mod_cast hsq
        exact this
      · intro hsq
        refine ⟨hz, ?_⟩
        have h49 : ((7/10 : ℝ)) ^ 2 = ((49/100 : ℚ) : ℝ) := by norm_num
        rw [h49]
        exact_mod_cast hsq
    have h5 : (1/2 : ℝ) ≤ |r| ↔ (25/100 : ℚ) * (vx * vy) ≤ num ^ 2 := by
      rw [abs_corr_ge_iff num vx vy r hvx hvy hr (1/2) (by norm_num)]
      constructor
      · rintro ⟨_, hsq⟩
        have h25 : ((1/2 : ℝ)) ^ 2 = ((25/100 : ℚ) : ℝ) := by norm_num
        rw [h25] at hsq
        exact_mod_cast hsq
      · intro hsq
        refine ⟨hz, ?_⟩
        have h25 : ((1/2 : ℝ)) ^ 2 = ((25/100 : ℚ) : ℝ) := by norm_num
        rw [h25]
        exact_mod_cast hsq
    have h3 : (3/10 : ℝ) ≤ |r| ↔ (9/100 : ℚ) * (vx * vy) ≤ num ^ 2 := by
      rw [abs_corr_ge_iff num vx vy r hvx hvy hr (3/10) (by norm_num)]
      constructor
      · rintro ⟨_, hsq⟩
        have h9 : ((3/10 : ℝ)) ^ 2 = ((9/100 : ℚ) : ℝ) := by norm_num
        rw [h9] at hsq
        exact_mod_cast hsq
      · intro hsq
        refine ⟨hz, ?_⟩
        have h9 : ((3/10 : ℝ)) ^ 2 = ((9/100 : ℚ) : ℝ) := by norm_num
        rw [h9]
        exact_mod_cast hsq
    simp only [classifyStrength, if_neg hz]
    by_cases hq7 : (49/100 : ℚ) * (vx * vy) ≤ num ^ 2
    · rw [if_pos hq7, if_pos (h7.mpr hq7)]
    · rw [if_neg hq7, if_neg (fun hc => hq7 (h7.mp hc))]
      by_cases hq5 : (25/100 : ℚ) * (vx * vy) ≤ num ^ 2
      · rw [if_pos hq5, if_pos (h5.mpr hq5)]
      · rw [if_neg hq5, if_neg (fun hc => hq5 (h5.mp hc))]
        by_cases hq3 : (9/100 : ℚ) * (vx * vy) ≤ num ^ 2
        · rw [if_pos hq3, if_pos (h3.mpr hq3)]
        · rw [if_neg hq3, if_neg (fun hc => hq3 (h3.mp hc))]

/-- Claim C8: for every macro factor and input list, the Correlation Engine
returns the untouched `strength = 'None'` entry when fewer than 3 valid
(outcome, factor) pairs survive the missing-value filter; with ≥ 3 valid
pairs it stores the Pearson data of the filtered sample
(`corrNum / √(varX·varY)` is the source's `correlation`, 0 when the
denominator vanishes), classifies strength by `|r|` against 0.7 / 0.5 /
0.3, and reports direction Positive exactly when `r > 0`. -/
theorem C8_correlation_guard (pts : List MacroPoint) (f : Factor) :
    ((validPairs f pts).length < 3 →
      calcMacroCorrelations pts f =
        { corrNum := 0, varX := 0, varY := 0, strength := "None",
          sampleSize := 0, direction := none }) ∧
    (3 ≤ (validPairs f pts).length →
      (calcMacroCorrelations pts f).corrNum = pearsonNum (validPairs f pts) ∧
      (calcMacroCorrelations pts f).varX = pearsonVarX (validPairs f pts) ∧
      (calcMacroCorrelations pts f).varY = pearsonVarY (validPairs f pts) ∧
      (calcMacroCorrelations pts f).sampleSize = (validPairs f pts).length ∧
      ∀ r : ℝ,
        r = (if Real.sqrt ((pearsonVarX (validPairs f pts) : ℝ) *
                 (pearsonVarY (validPairs f pts) : ℝ)) = 0 then 0
             else (pearsonNum (validPairs f pts) : ℝ) /
               Real.sqrt ((pearsonVarX (validPairs f pts) : ℝ) *
                 (pearsonVarY (validPairs f pts) : ℝ))) →
        ((calcMacroCorrelations pts f).strength =
            if (7/10 : ℝ) ≤ |r| then "Strong"
            else if (1/2 : ℝ) ≤ |r| then "Moderate"
            else if (3/10 : ℝ) ≤ |r| then "Weak"
            else "Negligible") ∧
        ((calcMacroCorrelations pts f).direction = some "Positive" ↔ 0 < r) ∧
        ((calcMacroCorrelations pts f).direction = some "Negative" ↔ r ≤ 0)) := by
  constructor
  · intro hlt
    unfold calcMacroCorrelations
    rw [if_neg (by omega)]
  · intro hge
    have hentry : calcMacroCorrelations pts f =
        { corrNum := pearsonNum (validPairs f pts),
          varX := pearsonVarX (validPairs f pts),
          varY := pearsonVarY (validPairs f pts),
          strength := classifyStrength (pearsonNum (validPairs f pts))
            (pearsonVarX (validPairs f pts)) (pearsonVarY (validPairs f pts)),
          sampleSize := (validPairs f pts).length,
          direction := some (directionOf (pearsonNum (validPairs f pts))
            (pearsonVarX (validPairs f pts)) (pearsonVarY (validPairs f pts))) } := by
      unfold calcMacroCorrelations
      rw [if_pos hge]
    rw [hentry]
    refine ⟨rfl, rfl, rfl, rfl, ?_⟩
    intro r hr
    have hiff := corr_pos_iff (pearsonNum (validPairs f pts))
      (pearsonVarX (validPairs f pts)) (pearsonVarY (validPairs f pts)) r
      (pearsonVarX_nonneg _) (pearsonVarY_nonneg _) hr
    refine ⟨?_, ?_, ?_⟩
    · exact classifyStrength_eq_real _ _ _ r
        (pearsonVarX_nonneg _) (pearsonVarY_nonneg _) hr
    · show some (directionOf _ _ _) = some "Positive" ↔ 0 < r
      unfold directionOf
      by_cases hcond : 0 < pearsonNum (validPairs f pts) ∧
          pearsonVarX (validPairs f pts) * pearsonVarY (validPairs f pts) ≠ 0
      · rw [if_pos hcond]
        exact ⟨fun _ => hiff.mpr hcond, fun _ => rfl⟩
      · rw [if_neg hcond]
        constructor
        · intro hcontra
          exact absurd hcontra (by decide)
        · intro hlt
          exact absurd (hiff.mp hlt) hcond
    · show some (directionOf _ _ _) = some "Negative" ↔ r ≤ 0
      unfold directionOf
      by_cases hcond : 0 < pearsonNum (validPairs f pts) ∧
          pearsonVarX (validPairs f pts) * pearsonVarY (validPairs f pts) ≠ 0
      · rw [if_pos hcond]
        constructor
        · intro hcontra
          exact absurd hcontra (by decide)
        · intro hle
          exact absurd (hiff.mpr hcond) (not_lt.mpr hle)
      · rw [if_neg hcond]
        exact ⟨fun _ => not_lt.mp (fun hlt => hcond (hiff.mp hlt)), fun _ => rfl⟩

/-- Concrete macro points for the C8 witness: three valid (outcome, CPI)
pairs `(1,1), (2,2), (3,3)`, for which the Pearson data is
`corrNum = 6, varX = 6, varY = 6` (so `r = 6/√36 = 1`). -/
def c8Pts : List MacroPoint :=
  [{ priceChange := some 1, cpi := some 1 },
   { priceChange := some 2, cpi := some 2 },
   { priceChange := some 3, cpi := some 3 }]

/-- Witness for C8 on three perfectly correlated pairs. -/
theorem C8_witness :
    (3 ≤ (validPairs Factor.cpi c8Pts).length ∧
     (calcMacroCorrelations c8Pts Factor.cpi).strength = "Strong" ∧
     (calcMacroCorrelations c8Pts Factor.cpi).direction = some "Positive" ∧
     (calcMacroCorrelations c8Pts Factor.cpi).sampleSize = 3) ∧
    ((calcMacroCorrelations c8Pts Factor.cpi).corrNum =
        pearsonNum (validPairs Factor.cpi c8Pts) ∧
     (calcMacroCorrelations c8Pts Factor.cpi).varX =
        pearsonVarX (validPairs Factor.cpi c8Pts) ∧
     (calcMacroCorrelations c8Pts Factor.cpi).varY =
        pearsonVarY (validPairs Factor.cpi c8Pts) ∧
     (calcMacroCorrelations c8Pts Factor.cpi).sampleSize =
        (validPairs Factor.cpi c8Pts).length ∧
     ∀ r : ℝ,
        r = (if Real.sqrt ((pearsonVarX (validPairs Factor.cpi c8Pts) : ℝ) *
                 (pearsonVarY (validPairs Factor.cpi c8Pts) : ℝ)) = 0 then 0
             else (pearsonNum (validPairs Factor.cpi c8Pts) : ℝ) /
               Real.sqrt ((pearsonVarX (validPairs Factor.cpi c8Pts) : ℝ) *
                 (pearsonVarY (validPairs Factor.cpi c8Pts) : ℝ))) →
        ((calcMacroCorrelations c8Pts Factor.cpi).strength =
            if (7/10 : ℝ) ≤ |r| then "Strong"
            else if (1/2 : ℝ) ≤ |r| then "Moderate"
            else if (3/10 : ℝ) ≤ |r| then "Weak"
            else "Negligible") ∧
        ((calcMacroCorrelations c8Pts Factor.cpi).direction = some "Positive" ↔ 0 < r) ∧
        ((calcMacroCorrelations c8Pts Factor.cpi).direction = some "Negative" ↔ r ≤ 0)) :=
  ⟨⟨by decide, by decide, by decide, by decide⟩,
    (C8_correlation_guard c8Pts Factor.cpi).2 (by decide)⟩

/-- Witness for C4: a 1-row series and the empty/no-data boundary. -/
theorem C4_witness :
    ((analyze_market_impact "d" ([100] : List ℚ)).price_change_pct =
        PyVal.str "N/A" ↔ ([100] : List ℚ) = []) ∧
      analyze_market_impact "d" [(42 : ℚ)] =
        { price_change_pct := PyVal.num 0, max_drawdown_pct := PyVal.num 0,
          date_range := "d", trading_days := some 1 } :=
  ⟨C4_amended_nodata.1 "d" [100], C4_amended_nodata.2 "d" 42⟩

/-- Concrete inputs for the C9 witness. -/
def c9H : Headline := { event_type := some "Monetary Policy", sentiment := some "Bullish" }

def c9Ts : List Template :=
  [{ event_type := some "Monetary Policy" },
   { sentiment := some "Bullish" },
   { event_type := some "Other" }]

def c9Imp : Template → Option ImpactData := fun _ =>
  some { price_change_pct := PyVal.num 2, max_drawdown_pct := PyVal.num (-1),
         date_range := "d" }

/-- Witness for C9 at a concrete event, template store and impact data. -/
theorem C9_witness :
    (match_similar_events c9H c9Ts 3 c9Imp).length ≤ 3 ∧
    (match_similar_events c9H c9Ts 3 c9Imp).Pairwise
      (fun a b => b.match_score.getD 0 ≤ a.match_score.getD 0) ∧
    (∀ r ∈ match_similar_events c9H c9Ts 3 c9Imp, 0 < r.match_score.getD 0) ∧
    (∀ s : ℚ,
      (sortDescBy (fun p => p.1) (scoredEvents c9H c9Ts)).filter (fun p => p.1 = s) =
        (scoredEvents c9H c9Ts).filter (fun p => p.1 = s)) :=
  C9_ranking_stability c9H c9Ts 3 c9Imp
